import Mathlib

/-!
Verification of the photo-geolocation pipeline in `streamlit_app.py`.

The Python source is shallowly embedded: every external library call
(PIL verification, pillow_heif conversion, EXIF parsing, the OSRM HTTP
request, the wall clock behind `datetime.now()`) is a parameter of the
embedding, while all logic written in the repository itself (hemisphere
negation, the HEIC prefix test, URL construction, the processing loops,
timestamp sorting, rounding, the distance sort and the render loops) is
translated literally.  Bytes are `List Nat` (byte values), Python floats
are `ℚ`, and `None` is `Option.none`.
-/

namespace ChatDinz

/-- EXIF GPS payload of an image: the degrees/minutes/seconds triples
`gps_latitude` / `gps_longitude` and the hemisphere reference strings
`gps_latitude_ref` / `gps_longitude_ref`, as exposed by the `exif` library. -/
structure GpsData where
  lat : ℚ × ℚ × ℚ
  lon : ℚ × ℚ × ℚ
  lat_ref : String
  lon_ref : String
deriving DecidableEq, Repr

/-- Outcome of constructing `ExifImage` on a given byte string: whether the
constructor raises, and, when it does not, whether the `gps_latitude`
attribute is present together with the GPS payload. -/
structure ExifOutcome where
  parses : Bool
  gps : Option GpsData
deriving DecidableEq, Repr

/-- Model of one uploaded byte string together with the behaviour of the
external libraries on it: `bytes` is the raw content (used by the literal
`startswith` test in the source), `pilVerifies` records whether
`Image.open(...).verify()` succeeds, `heicConv` is the result of
`convert_heic_to_jpeg` (`none` when that helper catches an exception and
returns `None`; otherwise the produced JPEG bytes and the `ExifImage`
outcome on them), and `exif` is the `ExifImage` outcome on the raw bytes. -/
structure ImageModel where
  bytes : List Nat
  pilVerifies : Bool
  heicConv : Option (List Nat × ExifOutcome)
  exif : ExifOutcome
deriving DecidableEq, Repr

/-- The byte values of the ASCII string ftypheic, the literal
`b"ftypheic"` of the source. -/
def ftypheicBytes : List Nat := [102, 116, 121, 112, 104, 101, 105, 99]

/-- `image_bytes.startswith(b"ftypheic")`: the first eight bytes equal the
literal. -/
def startsWithFtypheic (bs : List Nat) : Bool := bs.take 8 == ftypheicBytes

/-- Degrees/minutes/seconds to decimal degrees: `d[0] + d[1]/60 + d[2]/3600`,
the formula of lines 56 and 59 of the source. -/
def dmsToDecimal (d : ℚ × ℚ × ℚ) : ℚ := d.1 + d.2.1 / 60 + d.2.2 / 3600

/-- The byte string and `ExifImage` outcome that `extract_coordinates`
actually reads after the HEIC branch of lines 42 to 45: on the
`startswith(b"ftypheic")` branch the conversion result (`none` when the
conversion returned `None` or an empty byte string, both falsy in Python),
otherwise the raw bytes with their own EXIF outcome. -/
def effectiveSource (img : ImageModel) : Option (List Nat × ExifOutcome) :=
  if startsWithFtypheic img.bytes then
    match img.heicConv with
    | none => none
    | some (bs, ex) => if bs = [] then none else some (bs, ex)
  else
    some (img.bytes, img.exif)

/-- `extract_coordinates` (lines 37 to 62): verify the image with PIL,
convert HEIC byte strings, construct `ExifImage`, and when `gps_latitude`
is present convert both DMS triples to decimal degrees, negating the
latitude when `gps_latitude_ref != N` and the longitude when
`gps_longitude_ref != E`.  Returns the coordinate pair together with the
(possibly converted) byte string, or `none` for the `None, None` returns. -/
def extract_coordinates (img : ImageModel) : Option ((ℚ × ℚ) × List Nat) :=
  if ¬ img.pilVerifies then none
  else
    match effectiveSource img with
    | none => none
    | some (bs, ex) =>
      if ¬ ex.parses then none
      else
        match ex.gps with
        | none => none
        | some g =>
          let lat_decimal := dmsToDecimal g.lat
          let lat_decimal := if g.lat_ref ≠ "N" then -lat_decimal else lat_decimal
          let lon_decimal := dmsToDecimal g.lon
          let lon_decimal := if g.lon_ref ≠ "E" then -lon_decimal else lon_decimal
          some ((lat_decimal, lon_decimal), bs)

/-- Parsed JSON body of an OSRM response: the `code` field and the list of
routes, each reduced to its `distance` (meters) and `duration` (seconds). -/
structure OsrmData where
  code : String
  routes : List (ℚ × ℚ)
deriving DecidableEq, Repr

/-- What the network does for one URL: either some step of
`requests.get` / `response.json()` raises (with the exception text), or a
response with a status code and a parsed body comes back. -/
inductive OsrmResult where
  | exn (msg : String)
  | resp (status : Nat) (data : OsrmData)
deriving DecidableEq, Repr

/-- The URL built on lines 68 and 69 of the source: base address followed by
`origin` and `destination`, each serialized longitude first.  `fmt` is the
Python float formatting, opaque here. -/
def osrmUrl (fmt : ℚ → String) (origin destination : ℚ × ℚ) : String :=
  "http://router.project-osrm.org/route/v1/driving/" ++
    fmt origin.2 ++ "," ++ fmt origin.1 ++ ";" ++ fmt destination.2 ++ "," ++ fmt destination.1

/-- Observable outcome of one `calculate_osrm_route` call: the returned pair,
the URLs requested (in order), and the `st.error` messages emitted. -/
structure OsrmCall where
  distance : Option ℚ
  duration : Option ℚ
  requested : List String
  errors : List String
deriving DecidableEq, Repr

/-- `calculate_osrm_route` (lines 65 to 88): build the URL, perform the
request, and on status 200 with body code `Ok` return the first route's
distance and duration; a non-200 status, a non-`Ok` code, or any raised
exception (including the `IndexError` when `routes` is empty) emits one
`st.error` message and returns `None, None`. -/
def calculate_osrm_route (world : String → OsrmResult) (fmt : ℚ → String)
    (origin destination : ℚ × ℚ) : OsrmCall :=
  let url := osrmUrl fmt origin destination
  match world url with
  | .exn msg => ⟨none, none, [url], ["Terjadi kesalahan: " ++ msg]⟩
  | .resp status data =>
    if status = 200 then
      if data.code = "Ok" then
        match data.routes with
        | [] => ⟨none, none, [url], ["Terjadi kesalahan: list index out of range"]⟩
        | r :: _ => ⟨some r.1, some r.2, [url], []⟩
      else ⟨none, none, [url], ["Gagal mendapatkan rute. Pastikan koordinat valid."]⟩
    else ⟨none, none, [url], ["Error: " ++ toString status]⟩

/-- Whether the body of `calculate_osrm_route` raises an exception for the
given pair: the network raises, or the response passes both guards with an
empty route list so that `data[routes][0]` raises `IndexError`. -/
def osrmRaises (world : String → OsrmResult) (fmt : ℚ → String)
    (origin destination : ℚ × ℚ) : Bool :=
  match world (osrmUrl fmt origin destination) with
  | .exn _ => true
  | .resp status data => status == 200 && data.code == "Ok" && data.routes.isEmpty

/-- Round to the nearest integer with ties to even, the behaviour of the
Python builtin `round` on these decimal values. -/
def roundHalfEven (q : ℚ) : ℤ :=
  if Int.fract q < 1 / 2 then ⌊q⌋
  else if 1 / 2 < Int.fract q then ⌊q⌋ + 1
  else if ⌊q⌋ % 2 = 0 then ⌊q⌋ else ⌊q⌋ + 1

/-- `round(x, 2)` of the source: round to two decimal places. -/
def round2 (q : ℚ) : ℚ := (roundHalfEven (q * 100) : ℚ) / 100

/-- One uploaded file: its `name` and the byte content with the external
library behaviour on it. -/
structure UploadedFile where
  name : String
  img : ImageModel
deriving DecidableEq, Repr

/-- `file.name.split(".")[0]`: the part of the name before the first dot. -/
def beforeDot (s : String) : String := (s.data.takeWhile (fun c => c ≠ '.')).asString

/-- Numeric value of a decimal digit character. -/
def digitVal (c : Char) : Nat := c.toNat - 48

/-- Numeric value of a list of decimal digit characters. -/
def digitsVal (l : List Char) : Nat := l.foldl (fun acc c => acc * 10 + digitVal c) 0

/-- Whether a year is a Gregorian leap year, as the Python datetime module
reckons it: divisible by 4 and not by 100, or divisible by 400. -/
def isLeapYear (y : Nat) : Bool := (y % 4 == 0 && y % 100 != 0) || y % 400 == 0

/-- The length of a month, as the datetime constructor validates the day
field. -/
def daysInMonth (y mo : Nat) : Nat :=
  if mo = 2 then (if isLeapYear y then 29 else 28)
  else if mo = 4 ∨ mo = 6 ∨ mo = 9 ∨ mo = 11 then 30
  else 31

/-- Modelled external library behaviour: the candidate matches of the
strptime month pattern, regex `1[0-2]|0[1-9]|[1-9]`, on a character list,
as value and remainder pairs in the order the regex engine tries the
alternatives. -/
def monthAlts : List Char → List (Nat × List Char)
  | c1 :: c2 :: rest =>
    (if c1 = '1' ∧ '0' ≤ c2 ∧ c2 ≤ '2' then [(10 + digitVal c2, rest)] else []) ++
    (if c1 = '0' ∧ '1' ≤ c2 ∧ c2 ≤ '9' then [(digitVal c2, rest)] else []) ++
    (if '1' ≤ c1 ∧ c1 ≤ '9' then [(digitVal c1, c2 :: rest)] else [])
  | [c1] => if '1' ≤ c1 ∧ c1 ≤ '9' then [(digitVal c1, [])] else []
  | [] => []

/-- Modelled external library behaviour: the candidate matches of the
strptime day pattern, regex `3[01]|[12]\d|0[1-9]|[1-9]`, in the order the
regex engine tries the alternatives. -/
def dayAlts : List Char → List (Nat × List Char)
  | c1 :: c2 :: rest =>
    (if c1 = '3' ∧ (c2 = '0' ∨ c2 = '1') then [(30 + digitVal c2, rest)] else []) ++
    (if (c1 = '1' ∨ c1 = '2') ∧ c2.isDigit then
      [(digitVal c1 * 10 + digitVal c2, rest)] else []) ++
    (if c1 = '0' ∧ '1' ≤ c2 ∧ c2 ≤ '9' then [(digitVal c2, rest)] else []) ++
    (if '1' ≤ c1 ∧ c1 ≤ '9' then [(digitVal c1, c2 :: rest)] else [])
  | [c1] => if '1' ≤ c1 ∧ c1 ≤ '9' then [(digitVal c1, [])] else []
  | [] => []

/-- Modelled external library behaviour: the candidate matches of the
strptime hour pattern, regex `2[0-3]|[0-1]\d|\d`, in the order the regex
engine tries the alternatives. -/
def hourAlts : List Char → List (Nat × List Char)
  | c1 :: c2 :: rest =>
    (if c1 = '2' ∧ '0' ≤ c2 ∧ c2 ≤ '3' then [(20 + digitVal c2, rest)] else []) ++
    (if (c1 = '0' ∨ c1 = '1') ∧ c2.isDigit then
      [(digitVal c1 * 10 + digitVal c2, rest)] else []) ++
    (if c1.isDigit then [(digitVal c1, c2 :: rest)] else [])
  | [c1] => if c1.isDigit then [(digitVal c1, [])] else []
  | [] => []

/-- Modelled external library behaviour: the candidate matches of the
strptime minute pattern, regex `[0-5]\d|\d`, in the order the regex engine
tries the alternatives. -/
def minuteAlts : List Char → List (Nat × List Char)
  | c1 :: c2 :: rest =>
    (if '0' ≤ c1 ∧ c1 ≤ '5' ∧ c2.isDigit then
      [(digitVal c1 * 10 + digitVal c2, rest)] else []) ++
    (if c1.isDigit then [(digitVal c1, c2 :: rest)] else [])
  | [c1] => if c1.isDigit then [(digitVal c1, [])] else []
  | [] => []

/-- Modelled external library behaviour: the candidate matches of the
strptime second pattern, regex `6[0-1]|[0-5]\d|\d` (leap seconds pass the
regex), in the order the regex engine tries the alternatives. -/
def secondAlts : List Char → List (Nat × List Char)
  | c1 :: c2 :: rest =>
    (if c1 = '6' ∧ (c2 = '0' ∨ c2 = '1') then [(60 + digitVal c2, rest)] else []) ++
    (if '0' ≤ c1 ∧ c1 ≤ '5' ∧ c2.isDigit then
      [(digitVal c1 * 10 + digitVal c2, rest)] else []) ++
    (if c1.isDigit then [(digitVal c1, c2 :: rest)] else [])
  | [c1] => if c1.isDigit then [(digitVal c1, [])] else []
  | [] => []

/-- Modelled external library behaviour: the full strptime regex for the
format `%Y%m%d_%H%M%S` -- four digits, then the month, day, literal
underscore, hour, minute and second patterns -- matched against the whole
string by a backtracking engine: alternatives are tried in regex order and
the first assignment that also consumes the entire input wins (a remainder
raises the "unconverted data remains" ValueError, modelled as `none`). -/
def parseYMD_HMS : List Char → Option (Nat × Nat × Nat × Nat × Nat × Nat)
  | y1 :: y2 :: y3 :: y4 :: rest =>
    if y1.isDigit ∧ y2.isDigit ∧ y3.isDigit ∧ y4.isDigit then
      (monthAlts rest).findSome? fun mo =>
        (dayAlts mo.2).findSome? fun d =>
          match d.2 with
          | '_' :: r3 =>
            (hourAlts r3).findSome? fun h =>
              (minuteAlts h.2).findSome? fun mi =>
                (secondAlts mi.2).findSome? fun sec =>
                  if sec.2 = [] then
                    some (digitsVal [y1, y2, y3, y4], mo.1, d.1, h.1, mi.1, sec.1)
                  else none
          | _ => none
    else none
  | _ => none

/-- Modelled external library behaviour:
`datetime.strptime(s, "%Y%m%d_%H%M%S")` of line 104.  The regex phase is
`parseYMD_HMS`; the datetime constructor then rejects year 0, a day beyond
the month's length (leap years per `isLeapYear`) and the leap seconds 60
and 61 that the regex tolerates -- each a ValueError the caller catches.
A successful parse is encoded as a natural number whose order agrees with
the order on datetime values. -/
def parseTimestampKey (s : String) : Option Nat :=
  match parseYMD_HMS s.data with
  | none => none
  | some (y, mo, d, h, mi, sec) =>
    if 1 ≤ y ∧ 1 ≤ d ∧ d ≤ daysInMonth y mo ∧ sec ≤ 59 then
      some (((((y * 100 + mo) * 100 + d) * 100 + h) * 100 + mi) * 100 + sec)
    else none

/-- `get_file_timestamp` (lines 99 to 109) applied to each file in order,
threading the wall clock: a file whose name contains an underscore and
whose part before the first dot parses in the timestamp format receives the
parsed key (scaled so that its microsecond field is zero); every other file
receives the next `datetime.now()` value.  The n-th `datetime.now()` call
of the run returns `clock n`. -/
def fileKeys (clock : Nat → Nat) : List UploadedFile → Nat → List (UploadedFile × Nat)
  | [], _ => []
  | f :: fs, n =>
    if f.name.data.contains '_' then
      match parseTimestampKey (beforeDot f.name) with
      | some k => (f, k * 1000000) :: fileKeys clock fs n
      | none => (f, clock n) :: fileKeys clock fs (n + 1)
    else (f, clock n) :: fileKeys clock fs (n + 1)

/-- `sorted(uploaded_files, key=get_file_timestamp)` (line 112): stable sort
of the files by their timestamp key.  Python `sorted` is stable, and every
stable sort computes the same list, so it is embedded as insertion sort. -/
def sortFiles (clock : Nat → Nat) (files : List UploadedFile) : List UploadedFile :=
  (List.insertionSort (fun a b => a.2 ≤ b.2) (fileKeys clock files 0)).map Prod.fst

/-- One row of `valid_data` (lines 137 to 141): file name, latitude,
longitude. -/
structure ExcelRow where
  nama : String
  latitude : ℚ
  longitude : ℚ
deriving DecidableEq, Repr

/-- The four parallel lists built by the processing loop, plus the
`st.warning` messages it emits.  A thumbnail is the deterministic PIL
reduction of the byte string the loop opened, so it is represented by that
byte string. -/
structure ProcessOut where
  coordinates : List (ℚ × ℚ)
  valid_images : List String
  thumbnails : List (List Nat)
  valid_data : List ExcelRow
  warnings : List String
deriving DecidableEq, Repr

/-- The processing loop of lines 122 to 143: for each file in order, extract
coordinates; on success append to `coordinates`, `valid_images`,
`thumbnails` and `valid_data`, otherwise emit the no-GPS warning. -/
def processFiles : List UploadedFile → ProcessOut
  | [] => ⟨[], [], [], [], []⟩
  | f :: fs =>
    let rest := processFiles fs
    match extract_coordinates f.img with
    | some (coords, converted) =>
      ⟨coords :: rest.coordinates, f.name :: rest.valid_images,
       converted :: rest.thumbnails,
       ⟨f.name, coords.1, coords.2⟩ :: rest.valid_data, rest.warnings⟩
    | none =>
      ⟨rest.coordinates, rest.valid_images, rest.thumbnails, rest.valid_data,
       ("Foto " ++ f.name ++ " tidak memiliki data GPS") :: rest.warnings⟩

/-- One `distances` entry (lines 155 to 161). -/
structure DistRecord where
  nama : String
  latitude : ℚ
  longitude : ℚ
  jarak : ℚ
  durasi : ℚ
deriving DecidableEq, Repr

/-- Output of the route loop: the `distances` records, the `st.warning`
messages, and the URLs requested and `st.error` messages accumulated over
the `calculate_osrm_route` calls. -/
structure DistOut where
  records : List DistRecord
  warnings : List String
  requested : List String
  errors : List String
deriving DecidableEq, Repr

/-- The route loop of lines 151 to 163 over `zip(coordinates, valid_images)`:
one `calculate_osrm_route` call per pair against the fixed reference point;
on two non-`None` results append a record with both values rounded to two
decimals, otherwise emit the failed-route warning. -/
def computeDistances (world : String → OsrmResult) (fmt : ℚ → String) (ref : ℚ × ℚ) :
    List ((ℚ × ℚ) × String) → DistOut
  | [] => ⟨[], [], [], []⟩
  | (coord, filename) :: rest =>
    let call := calculate_osrm_route world fmt ref coord
    let tail := computeDistances world fmt ref rest
    match call.distance, call.duration with
    | some distance, some duration =>
      ⟨⟨filename, coord.1, coord.2, round2 distance, round2 duration⟩ :: tail.records,
       tail.warnings, call.requested ++ tail.requested, call.errors ++ tail.errors⟩
    | _, _ =>
      ⟨tail.records,
       ("Gagal menghitung rute untuk foto " ++ filename ++ ".") :: tail.warnings,
       call.requested ++ tail.requested, call.errors ++ tail.errors⟩

/-- `sorted(distances, key=lambda x: x["Jarak (Meter)"])` (line 166): stable
sort of the records by the rounded distance, embedded as insertion sort for
the same reason as `sortFiles`. -/
def sortDistances (records : List DistRecord) : List DistRecord :=
  List.insertionSort (fun a b => a.jarak ≤ b.jarak) records

/-- `thumbnails[valid_images.index(name)]`: resolve a file name to the index
of its first occurrence in `valid_images` and read the thumbnail there;
`none` models the exception raised when the name is absent or the index is
out of range. -/
def lookupThumb (valid_images : List String) (thumbnails : List (List Nat))
    (name : String) : Option (List Nat) :=
  thumbnails[valid_images.indexOf name]?

/-- One folium marker (lines 185 to 200): position, popup thumbnail, file
name used as caption and tooltip. -/
structure Marker where
  location : ℚ × ℚ
  thumb : Option (List Nat)
  tooltip : String
deriving DecidableEq, Repr

/-- The thumbnail grid loop of lines 176 to 179: for each sorted row, the
looked-up thumbnail with the row's file name as caption. -/
def thumbGrid (po : ProcessOut) (rows : List DistRecord) :
    List (Option (List Nat) × String) :=
  rows.map (fun row => (lookupThumb po.valid_images po.thumbnails row.nama, row.nama))

/-- The marker loop of lines 185 to 200: one marker per sorted row at the
row's coordinates with the looked-up thumbnail in the popup. -/
def mapMarkers (po : ProcessOut) (rows : List DistRecord) : List Marker :=
  rows.map (fun row =>
    ⟨(row.latitude, row.longitude), lookupThumb po.valid_images po.thumbnails row.nama,
     row.nama⟩)

/-- The KML loop of lines 222 to 228: one named point per sorted row, the
coordinate pair written longitude first. -/
def kmlPoints (rows : List DistRecord) : List (String × (ℚ × ℚ)) :=
  rows.map (fun row => (row.nama, (row.longitude, row.latitude)))

/-- `pd.DataFrame(sorted_distances)` (lines 170 and 207): the table and the
Excel sheet are the sorted records themselves, row for row. -/
def dataFrameRows (rows : List DistRecord) : List DistRecord := rows

/-- Everything one run of the script produces from the uploaded files. -/
structure RunResult where
  sorted_files : List UploadedFile
  proc : ProcessOut
  referencePoint : Option (ℚ × ℚ)
  dist : DistOut
  sortedRecords : List DistRecord
deriving DecidableEq, Repr

/-- The whole script after upload (lines 98 to 229): sort the files by
timestamp, run the extraction loop, take the first extracted coordinate
pair as the reference point, run the route loop, and sort the records by
distance.  With no extracted coordinates nothing further runs. -/
def runApp (clock : Nat → Nat) (world : String → OsrmResult) (fmt : ℚ → String)
    (files : List UploadedFile) : RunResult :=
  let sf := sortFiles clock files
  let po := processFiles sf
  match po.coordinates with
  | [] => ⟨sf, po, none, ⟨[], [], [], []⟩, []⟩
  | ref :: _ =>
    let dout := computeDistances world fmt ref (po.coordinates.zip po.valid_images)
    ⟨sf, po, some ref, dout, sortDistances dout.records⟩

/-- Sliding windows over a character list: the window of length `size`
starting at every multiple of `step`, in order of starting position.  An
empty text, or a step of zero, yields no windows. -/
def slidingWindows (size step : Nat) (l : List Char) : List (List Char) :=
  if h : l = [] ∨ step = 0 then []
  else l.take size :: slidingWindows size step (l.drop step)
termination_by l.length
decreasing_by
  push_neg at h
  simpa using Nat.sub_lt (List.length_pos.mpr h.1) (Nat.pos_of_ne_zero h.2)

/-- Modelled from the spec: the text-chunking operation of the retrieval
revisions of this repository is not under src; following section 4 of the
spec it takes the window of `size` characters at each starting position
`0, step, 2 * step, ...` with `step = size - overlap` (the loop over
`range(0, len(text), step)` such chunkers are written as), and discards
every window shorter than `minLen` characters. -/
def chunk_text (size overlap minLen : Nat) (text : List Char) : List (List Char) :=
  ((List.range ((text.length + (size - overlap) - 1) / (size - overlap))).map
      (fun i => (text.drop (i * (size - overlap))).take size)).filter
    (fun c => decide (minLen ≤ c.length))

/-- Whether a byte string opens as a well-formed HEIC file: the ISO base
media file format starts a file with the four byte length of the `ftyp`
box, so the `ftypheic` brand occupies offsets 4 to 11. -/
def isHeicFile (bs : List Nat) : Bool := (bs.drop 4).take 8 == ftypheicBytes

/-- Concrete southern-hemisphere GPS payload used as a test input. -/
def gpsW : GpsData := ⟨(7, 30, 36), (110, 15, 0), "S", "E"⟩

/-- Concrete image carrying `gpsW`, not HEIC, verified by PIL. -/
def imgW : ImageModel := ⟨[0], true, none, ⟨true, some gpsW⟩⟩

/-- Concrete GPS payload at decimal coordinates (1, 1). -/
def gpsN1 : GpsData := ⟨(1, 0, 0), (1, 0, 0), "N", "E"⟩

/-- Concrete GPS payload at decimal coordinates (2, 2). -/
def gpsN2 : GpsData := ⟨(2, 0, 0), (2, 0, 0), "N", "E"⟩

/-- Concrete file whose name parses to a year 3000 timestamp. -/
def fileTs1 : UploadedFile := ⟨"30000101_000000.jpg", ⟨[1], true, none, ⟨true, some gpsN1⟩⟩⟩

/-- Concrete file whose name parses to one second after `fileTs1`. -/
def fileTs2 : UploadedFile := ⟨"30000101_000001.jpg", ⟨[2], true, none, ⟨true, some gpsN2⟩⟩⟩

/-- Concrete file that PIL fails to verify, so extraction fails. -/
def fileBad : UploadedFile := ⟨"bad.jpg", ⟨[4], false, none, ⟨false, none⟩⟩⟩

/-- Network that always answers status 200, code `Ok`, one route of
distance 5 and duration 7. -/
def worldOkW : String → OsrmResult := fun _ => .resp 200 ⟨"Ok", [(5, 7)]⟩

/-- Network that always answers status 200, code `Ok`, one route of
distance 1234 and duration 56. -/
def worldW2 : String → OsrmResult := fun _ => .resp 200 ⟨"Ok", [(1234, 56)]⟩

/-- Network that always answers status 500. -/
def worldErrW : String → OsrmResult := fun _ => .resp 500 ⟨"Bad", []⟩

/-- Opaque float formatting used in the concrete runs. -/
def fmtW : ℚ → String := fun _ => "q"

/-- Wall clock frozen before the year 3000. -/
def clkW : Nat → Nat := fun _ => 0

/-- Byte string of a well-formed HEIC file: four byte box length, then the
`ftypheic` brand, then further content. -/
def heicFileBytes : List Nat := [0, 0, 0, 24] ++ ftypheicBytes ++ [0, 0, 0, 0]

/-- GPS payload stored in the raw EXIF of the HEIC test image. -/
def gpsRaw : GpsData := ⟨(1, 0, 0), (2, 0, 0), "N", "E"⟩

/-- GPS payload the converted JPEG of the HEIC test image would carry. -/
def gpsConv : GpsData := ⟨(50, 0, 0), (60, 0, 0), "N", "E"⟩

/-- Well-formed HEIC image whose conversion would succeed and yield EXIF
data different from the raw bytes, making the two paths distinguishable. -/
def heicImg : ImageModel :=
  ⟨heicFileBytes, true, some ([9, 9], ⟨true, some gpsConv⟩), ⟨true, some gpsRaw⟩⟩

/-- C1: for every image that PIL verifies and whose effective EXIF source
(after the HEIC branch) parses with the GPS attribute present,
`extract_coordinates` converts both degrees/minutes/seconds triples to
decimal degrees as `d + m/60 + s/3600`, negates the latitude exactly when
the latitude reference differs from `N` and the longitude exactly when the
longitude reference differs from `E`, and returns the pair
(latitude, longitude). -/
theorem extract_coordinates_dms_correct (img : ImageModel) (bs : List Nat)
    (ex : ExifOutcome) (g : GpsData) (hv : img.pilVerifies = true)
    (hsrc : effectiveSource img = some (bs, ex)) (hp : ex.parses = true)
    (hg : ex.gps = some g) :
    extract_coordinates img =
      some ((
        (if g.lat_ref ≠ "N" then -(g.lat.1 + g.lat.2.1 / 60 + g.lat.2.2 / 3600)
         else g.lat.1 + g.lat.2.1 / 60 + g.lat.2.2 / 3600,
         if g.lon_ref ≠ "E" then -(g.lon.1 + g.lon.2.1 / 60 + g.lon.2.2 / 3600)
         else g.lon.1 + g.lon.2.1 / 60 + g.lon.2.2 / 3600)), bs) := by
  simp [extract_coordinates, hv, hsrc, hp, hg, dmsToDecimal]

/-- Witness for C1: a concrete southern-hemisphere image, where the
latitude 7 deg 30 min 36 sec south becomes -7.51 and the longitude
110 deg 15 min east becomes 110.25. -/
theorem extract_coordinates_dms_correct_witness :
    extract_coordinates imgW = some ((-(751 / 100), 441 / 4), [0]) := by
  have h := extract_coordinates_dms_correct imgW [0] ⟨true, some gpsW⟩ gpsW rfl rfl rfl rfl
  rw [h, if_pos (by decide), if_neg (by decide)]
  norm_num [gpsW]

/-- C2: `calculate_osrm_route` queries the routing API exactly once, at the
URL serializing both coordinate pairs longitude first; when the response
arrives without an exception and carries a first route, it returns that
route's distance and duration with no error message exactly when the
status is 200 and the body code is `Ok`; and whenever the call raises (bad
network, or the empty route list raising on indexing) or either guard
fails, it returns `None, None` after emitting exactly one error message. -/
theorem calculate_osrm_route_spec (world : String → OsrmResult) (fmt : ℚ → String)
    (origin destination : ℚ × ℚ) :
    (calculate_osrm_route world fmt origin destination).requested =
      ["http://router.project-osrm.org/route/v1/driving/" ++ fmt origin.2 ++ "," ++
        fmt origin.1 ++ ";" ++ fmt destination.2 ++ "," ++ fmt destination.1] ∧
    (∀ status data r rest,
      world (osrmUrl fmt origin destination) = .resp status data →
      data.routes = r :: rest →
      ((calculate_osrm_route world fmt origin destination).distance = some r.1 ∧
        (calculate_osrm_route world fmt origin destination).duration = some r.2 ∧
        (calculate_osrm_route world fmt origin destination).errors = [] ↔
        status = 200 ∧ data.code = "Ok")) ∧
    (osrmRaises world fmt origin destination = true →
      (calculate_osrm_route world fmt origin destination).distance = none ∧
      (calculate_osrm_route world fmt origin destination).duration = none ∧
      (calculate_osrm_route world fmt origin destination).errors.length = 1) ∧
    (∀ status data,
      world (osrmUrl fmt origin destination) = .resp status data →
      ¬ (status = 200 ∧ data.code = "Ok") →
      (calculate_osrm_route world fmt origin destination).distance = none ∧
      (calculate_osrm_route world fmt origin destination).duration = none ∧
      (calculate_osrm_route world fmt origin destination).errors.length = 1) := by
  refine ⟨?_, ?_, ?_, ?_⟩
  · show (calculate_osrm_route world fmt origin destination).requested =
      [osrmUrl fmt origin destination]
    simp only [calculate_osrm_route]
    cases h : world (osrmUrl fmt origin destination) with
    | exn msg => simp
    | resp status data =>
      by_cases h200 : status = 200 <;> by_cases hok : data.code = "Ok" <;>
        cases hr : data.routes <;> simp [h200, hok, hr]
  · intro status data r rest h hr
    simp only [calculate_osrm_route]
    rw [h]
    by_cases h200 : status = 200 <;> by_cases hok : data.code = "Ok" <;>
      simp [h200, hok, hr]
  · intro hra
    rw [osrmRaises] at hra
    simp only [calculate_osrm_route]
    cases h : world (osrmUrl fmt origin destination) with
    | exn msg => simp
    | resp status data =>
      rw [h] at hra
      simp only [Bool.and_eq_true, beq_iff_eq, List.isEmpty_iff] at hra
      obtain ⟨⟨h200, hok⟩, hroutes⟩ := hra
      simp [h200, hok, hroutes]
  · intro status data h hng
    simp only [calculate_osrm_route]
    rw [h]
    by_cases h200 : status = 200
    · have hok : data.code ≠ "Ok" := fun hc => hng ⟨h200, hc⟩
      simp [h200, hok]
    · simp [h200]

/-- Witness for C2: against a network answering 200 / `Ok` with the single
route (1234, 56), the call returns exactly that distance and duration and
no error. -/
theorem calculate_osrm_route_spec_witness :
    (calculate_osrm_route worldW2 fmtW (1, 2) (3, 4)).distance = some 1234 ∧
    (calculate_osrm_route worldW2 fmtW (1, 2) (3, 4)).duration = some 56 ∧
    (calculate_osrm_route worldW2 fmtW (1, 2) (3, 4)).errors = [] :=
  ((calculate_osrm_route_spec worldW2 fmtW (1, 2) (3, 4)).2.1 200 ⟨"Ok", [(1234, 56)]⟩
    (1234, 56) [] rfl rfl).mpr ⟨rfl, rfl⟩

/-- Closed form of the sliding-window pass: with a positive step, the
windows are the `size`-character reads at positions `0, step, 2 * step, ...`
in order. -/
theorem slidingWindows_eq (size step : Nat) (hstep : 0 < step) (l : List Char) :
    slidingWindows size step l =
      (List.range ((l.length + step - 1) / step)).map
        (fun i => (l.drop (i * step)).take size) := by
  have main : ∀ (n : Nat) (l : List Char), l.length ≤ n →
      slidingWindows size step l =
        (List.range ((l.length + step - 1) / step)).map
          (fun i => (l.drop (i * step)).take size) := by
    intro n
    induction n with
    | zero =>
      intro l hl
      have hnil : l = [] := List.length_eq_zero.mp (Nat.le_zero.mp hl)
      subst hnil
      rw [slidingWindows]
      simp [Nat.div_eq_of_lt (Nat.sub_lt hstep Nat.one_pos)]
    | succ n ih =>
      intro l hl
      by_cases hnil : l = []
      · subst hnil
        rw [slidingWindows]
        simp [Nat.div_eq_of_lt (Nat.sub_lt hstep Nat.one_pos)]
      · have hpos : 0 < l.length := List.length_pos.mpr hnil
        have hcount : (l.length + step - 1) / step = (l.length - 1) / step + 1 := by
          rw [show l.length + step - 1 = l.length - 1 + step by omega,
            Nat.add_div_right _ hstep]
        have hcount2 : ((l.drop step).length + step - 1) / step = (l.length - 1) / step := by
          rw [List.length_drop]
          rcases Nat.lt_or_ge l.length step with hlt | hge
          · rw [Nat.sub_eq_zero_of_le (le_of_lt hlt), Nat.zero_add,
              Nat.div_eq_of_lt (Nat.sub_lt hstep Nat.one_pos),
              Nat.div_eq_of_lt (by omega : l.length - 1 < step)]
          · rw [show l.length - step + step - 1 = l.length - 1 by omega]
        rw [slidingWindows,
          dif_neg (by push_neg; exact ⟨hnil, Nat.pos_iff_ne_zero.mp hstep⟩),
          hcount, List.range_succ_eq_map]
        simp only [List.map_cons, List.map_map]
        congr 1
        · simp
        · rw [ih (l.drop step) (by rw [List.length_drop]; omega), hcount2]
          apply List.map_congr_left
          intro i _
          show ((l.drop step).drop (i * step)).take size =
            (l.drop (Nat.succ i * step)).take size
          rw [List.drop_drop, Nat.succ_mul, Nat.add_comm]
  exact main l.length l le_rfl

/-- C4: with an overlap below the window size, the chunking operation
returns exactly the windows obtained by sliding a `size`-character window
across the text with step `size - overlap`, in order of position, with
every window shorter than `minLen` discarded. -/
theorem chunk_text_slides (size overlap minLen : Nat) (text : List Char)
    (hov : overlap < size) :
    chunk_text size overlap minLen text =
      (slidingWindows size (size - overlap) text).filter
        (fun c => decide (minLen ≤ c.length)) := by
  rw [chunk_text, slidingWindows_eq size (size - overlap) (Nat.sub_pos_of_lt hov) text]

/-- Witness for C4: window 5, overlap 2, minimum length 3 on a ten
character text. -/
theorem chunk_text_slides_witness :
    (2 : Nat) < 5 ∧
    chunk_text 5 2 3 "abcdefghij".data =
      (slidingWindows 5 (5 - 2) "abcdefghij".data).filter
        (fun c => decide (3 ≤ c.length)) :=
  ⟨by decide, chunk_text_slides 5 2 3 "abcdefghij".data (by decide)⟩

/-- The extraction loop distributes over list append, field by field. -/
theorem processFiles_append (xs ys : List UploadedFile) :
    processFiles (xs ++ ys) =
      ⟨(processFiles xs).coordinates ++ (processFiles ys).coordinates,
       (processFiles xs).valid_images ++ (processFiles ys).valid_images,
       (processFiles xs).thumbnails ++ (processFiles ys).thumbnails,
       (processFiles xs).valid_data ++ (processFiles ys).valid_data,
       (processFiles xs).warnings ++ (processFiles ys).warnings⟩ := by
  induction xs with
  | nil => simp [processFiles]
  | cons f fs ih =>
    cases h : extract_coordinates f.img with
    | none => simp [processFiles, h, ih]
    | some val => simp [processFiles, h, ih]

/-- The route loop distributes over list append, field by field. -/
theorem computeDistances_append (world : String → OsrmResult) (fmt : ℚ → String)
    (ref : ℚ × ℚ) (xs ys : List ((ℚ × ℚ) × String)) :
    computeDistances world fmt ref (xs ++ ys) =
      ⟨(computeDistances world fmt ref xs).records ++
         (computeDistances world fmt ref ys).records,
       (computeDistances world fmt ref xs).warnings ++
         (computeDistances world fmt ref ys).warnings,
       (computeDistances world fmt ref xs).requested ++
         (computeDistances world fmt ref ys).requested,
       (computeDistances world fmt ref xs).errors ++
         (computeDistances world fmt ref ys).errors⟩ := by
  induction xs with
  | nil => simp [computeDistances]
  | cons p ps ih =>
    obtain ⟨coord, filename⟩ := p
    cases hd : (calculate_osrm_route world fmt ref coord).distance with
    | none => simp [computeDistances, hd, ih]
    | some d =>
      cases ht : (calculate_osrm_route world fmt ref coord).duration with
      | none => simp [computeDistances, hd, ht, ih]
      | some t => simp [computeDistances, hd, ht, ih]

/-- Each `calculate_osrm_route` call requests exactly its one URL. -/
theorem calculate_osrm_route_requested (world : String → OsrmResult) (fmt : ℚ → String)
    (origin destination : ℚ × ℚ) :
    (calculate_osrm_route world fmt origin destination).requested =
      [osrmUrl fmt origin destination] := by
  simp only [calculate_osrm_route]
  cases h : world (osrmUrl fmt origin destination) with
  | exn msg => simp
  | resp status data =>
    by_cases h200 : status = 200 <;> by_cases hok : data.code = "Ok" <;>
      cases hr : data.routes <;> simp [h200, hok, hr]

/-- The route loop requests each photo's URL exactly once, in photo order. -/
theorem computeDistances_requested (world : String → OsrmResult) (fmt : ℚ → String)
    (ref : ℚ × ℚ) (l : List ((ℚ × ℚ) × String)) :
    (computeDistances world fmt ref l).requested =
      l.map (fun p => osrmUrl fmt ref p.1) := by
  induction l with
  | nil => rfl
  | cons p ps ih =>
    obtain ⟨coord, filename⟩ := p
    have hreq := calculate_osrm_route_requested world fmt ref coord
    cases hd : (calculate_osrm_route world fmt ref coord).distance with
    | none => simp [computeDistances, hd, hreq, ih]
    | some d =>
      cases ht : (calculate_osrm_route world fmt ref coord).duration with
      | none => simp [computeDistances, hd, ht, hreq, ih]
      | some t => simp [computeDistances, hd, ht, hreq, ih]

/-- C3: a photo whose coordinate extraction fails contributes nothing to
the coordinate, name, thumbnail and table lists -- which are exactly those
of the run without it -- and adds only its warning between its neighbours'
warnings; a photo whose route computation returns `None` likewise
contributes no record and only its warning; and the route loop issues
exactly one request per remaining photo, so no failed call is retried. -/
theorem failed_photos_isolated :
    (∀ (xs ys : List UploadedFile) (bad : UploadedFile),
      extract_coordinates bad.img = none →
      processFiles (xs ++ bad :: ys) =
        ⟨(processFiles (xs ++ ys)).coordinates, (processFiles (xs ++ ys)).valid_images,
         (processFiles (xs ++ ys)).thumbnails, (processFiles (xs ++ ys)).valid_data,
         (processFiles xs).warnings ++
           ("Foto " ++ bad.name ++ " tidak memiliki data GPS") ::
             (processFiles ys).warnings⟩) ∧
    (∀ (world : String → OsrmResult) (fmt : ℚ → String) (ref c : ℚ × ℚ) (n : String)
      (xs ys : List ((ℚ × ℚ) × String)),
      (calculate_osrm_route world fmt ref c).distance = none ∨
        (calculate_osrm_route world fmt ref c).duration = none →
      (computeDistances world fmt ref (xs ++ (c, n) :: ys)).records =
        (computeDistances world fmt ref (xs ++ ys)).records ∧
      (computeDistances world fmt ref (xs ++ (c, n) :: ys)).warnings =
        (computeDistances world fmt ref xs).warnings ++
          ("Gagal menghitung rute untuk foto " ++ n ++ ".") ::
            (computeDistances world fmt ref ys).warnings) ∧
    (∀ (world : String → OsrmResult) (fmt : ℚ → String) (ref : ℚ × ℚ)
      (l : List ((ℚ × ℚ) × String)),
      (computeDistances world fmt ref l).requested =
        l.map (fun p => osrmUrl fmt ref p.1)) := by
  refine ⟨?_, ?_, ?_⟩
  · intro xs ys bad hbad
    have hsingle : processFiles [bad] =
        ⟨[], [], [], [], ["Foto " ++ bad.name ++ " tidak memiliki data GPS"]⟩ := by
      simp [processFiles, hbad]
    rw [show xs ++ bad :: ys = xs ++ [bad] ++ ys by simp, processFiles_append,
      processFiles_append xs [bad], hsingle, processFiles_append xs ys]
    simp
  · intro world fmt ref c n xs ys hfail
    have hsingle : computeDistances world fmt ref [(c, n)] =
        ⟨[], ["Gagal menghitung rute untuk foto " ++ n ++ "."],
         (calculate_osrm_route world fmt ref c).requested,
         (calculate_osrm_route world fmt ref c).errors⟩ := by
      rcases hfail with hd | ht
      · simp [computeDistances, hd]
      · cases hd : (calculate_osrm_route world fmt ref c).distance with
        | none => simp [computeDistances, hd]
        | some d => simp [computeDistances, hd, ht]
    rw [show xs ++ (c, n) :: ys = xs ++ [(c, n)] ++ ys by simp]
    rw [computeDistances_append world fmt ref (xs ++ [(c, n)]) ys,
      computeDistances_append world fmt ref xs [(c, n)], hsingle,
      computeDistances_append world fmt ref xs ys]
    simp
  · exact computeDistances_requested

/-- Witness for C3: a failing photo between two good ones, and a failing
route between two entries, each leaving the neighbours' outputs unchanged. -/
theorem failed_photos_isolated_witness :
    (processFiles ([fileTs1] ++ fileBad :: [fileTs2]) =
      ⟨(processFiles ([fileTs1] ++ [fileTs2])).coordinates,
       (processFiles ([fileTs1] ++ [fileTs2])).valid_images,
       (processFiles ([fileTs1] ++ [fileTs2])).thumbnails,
       (processFiles ([fileTs1] ++ [fileTs2])).valid_data,
       (processFiles [fileTs1]).warnings ++
         ("Foto " ++ fileBad.name ++ " tidak memiliki data GPS") ::
           (processFiles [fileTs2]).warnings⟩) ∧
    ((computeDistances worldErrW fmtW (0, 0) ([((1, 1), "a.jpg")] ++ ((2, 2), "b.jpg") :: [])).records =
      (computeDistances worldErrW fmtW (0, 0) ([((1, 1), "a.jpg")] ++ [])).records ∧
     (computeDistances worldErrW fmtW (0, 0) ([((1, 1), "a.jpg")] ++ ((2, 2), "b.jpg") :: [])).warnings =
      (computeDistances worldErrW fmtW (0, 0) [((1, 1), "a.jpg")]).warnings ++
        ("Gagal menghitung rute untuk foto " ++ "b.jpg" ++ ".") ::
          (computeDistances worldErrW fmtW (0, 0) ([] : List ((ℚ × ℚ) × String))).warnings) :=
  ⟨failed_photos_isolated.1 [fileTs1] [fileTs2] fileBad rfl,
   failed_photos_isolated.2.1 worldErrW fmtW (0, 0) (2, 2) "b.jpg"
     [((1, 1), "a.jpg")] [] (Or.inl rfl)⟩

/-- Every record the route loop produces comes from one input pair whose
routing call returned both values, and carries that pair's name and
coordinates with the rounded route values. -/
theorem computeDistances_records_mem (world : String → OsrmResult) (fmt : ℚ → String)
    (ref : ℚ × ℚ) (l : List ((ℚ × ℚ) × String)) :
    ∀ r ∈ (computeDistances world fmt ref l).records, ∃ p ∈ l,
      ∃ d t, (calculate_osrm_route world fmt ref p.1).distance = some d ∧
        (calculate_osrm_route world fmt ref p.1).duration = some t ∧
        r = ⟨p.2, p.1.1, p.1.2, round2 d, round2 t⟩ := by
  induction l with
  | nil => intro r hr; simp [computeDistances] at hr
  | cons p ps ih =>
    obtain ⟨coord, filename⟩ := p
    intro r hr
    cases hd : (calculate_osrm_route world fmt ref coord).distance with
    | none =>
      simp only [computeDistances, hd] at hr
      obtain ⟨q, hq, hrest⟩ := ih r hr
      exact ⟨q, List.mem_cons_of_mem _ hq, hrest⟩
    | some d =>
      cases ht : (calculate_osrm_route world fmt ref coord).duration with
      | none =>
        simp only [computeDistances, hd, ht] at hr
        obtain ⟨q, hq, hrest⟩ := ih r hr
        exact ⟨q, List.mem_cons_of_mem _ hq, hrest⟩
      | some t =>
        simp only [computeDistances, hd, ht, List.mem_cons] at hr
        rcases hr with hr | hr
        · exact ⟨(coord, filename), List.mem_cons_self _ _, d, t, hd, ht, hr⟩
        · obtain ⟨q, hq, hrest⟩ := ih r hr
          exact ⟨q, List.mem_cons_of_mem _ hq, hrest⟩

/-- C5: every record of a run is built from one GPS-bearing photo: it holds
exactly that photo's filename and decimal coordinates together with the
rounded distance and duration of the routing call from the one reference
point shared by the whole run. -/
theorem record_fields (clock : Nat → Nat) (world : String → OsrmResult)
    (fmt : ℚ → String) (files : List UploadedFile) (ref : ℚ × ℚ)
    (href : (runApp clock world fmt files).referencePoint = some ref) :
    ∀ r ∈ (runApp clock world fmt files).dist.records,
      ∃ p ∈ (runApp clock world fmt files).proc.coordinates.zip
          (runApp clock world fmt files).proc.valid_images,
        ∃ d t, (calculate_osrm_route world fmt ref p.1).distance = some d ∧
          (calculate_osrm_route world fmt ref p.1).duration = some t ∧
          r = ⟨p.2, p.1.1, p.1.2, round2 d, round2 t⟩ := by
  intro r hr
  simp only [runApp] at href hr ⊢
  cases hc : (processFiles (sortFiles clock files)).coordinates with
  | nil => rw [hc] at href; simp at href
  | cons c0 ctl =>
    rw [hc] at href hr ⊢
    simp only [Option.some.injEq] at href
    subst href
    exact computeDistances_records_mem world fmt c0 _ r hr

/-- Witness for C5: a single photo at decimal coordinates (1, 1) against a
network returning one route. -/
theorem record_fields_witness :
    (runApp clkW worldOkW fmtW [fileTs1]).referencePoint = some (1, 1) ∧
    ∀ r ∈ (runApp clkW worldOkW fmtW [fileTs1]).dist.records,
      ∃ p ∈ (runApp clkW worldOkW fmtW [fileTs1]).proc.coordinates.zip
          (runApp clkW worldOkW fmtW [fileTs1]).proc.valid_images,
        ∃ d t, (calculate_osrm_route worldOkW fmtW (1, 1) p.1).distance = some d ∧
          (calculate_osrm_route worldOkW fmtW (1, 1) p.1).duration = some t ∧
          r = ⟨p.2, p.1.1, p.1.2, round2 d, round2 t⟩ := by
  have h1 : (runApp clkW worldOkW fmtW [fileTs1]).referencePoint = some (1, 1) := by
    norm_num [runApp, sortFiles, fileKeys, parseTimestampKey, beforeDot, digitsVal, digitVal,
      processFiles, extract_coordinates, effectiveSource, startsWithFtypheic, ftypheicBytes,
      dmsToDecimal, fileTs1, gpsN1, clkW, List.insertionSort, List.orderedInsert]
  exact ⟨h1, record_fields clkW worldOkW fmtW [fileTs1] (1, 1) h1⟩

/-- C6: at a well-formed HEIC byte string -- four byte box length followed
by the `ftypheic` brand at offset 4 -- the prefix test of line 42 is false,
so `extract_coordinates` skips `convert_heic_to_jpeg` entirely (even though
the conversion would succeed) and reads the EXIF of the raw bytes,
returning the raw GPS data and the unconverted byte string. -/
theorem heic_file_not_converted :
    isHeicFile heicImg.bytes = true ∧
    startsWithFtypheic heicImg.bytes = false ∧
    extract_coordinates heicImg = some ((1, 2), heicFileBytes) := by
  refine ⟨by decide, by decide, ?_⟩
  norm_num [extract_coordinates, effectiveSource, startsWithFtypheic, ftypheicBytes,
    heicImg, heicFileBytes, gpsRaw, dmsToDecimal]

/-- C8: the distance-sorted list is a permutation of the route records that
is non-decreasing in the rounded `Jarak (Meter)` value, and the table and
Excel rows, the thumbnail grid captions, the map markers and the KML
points all enumerate exactly those records in that order. -/
theorem views_sorted_by_distance (clock : Nat → Nat) (world : String → OsrmResult)
    (fmt : ℚ → String) (files : List UploadedFile) :
    (runApp clock world fmt files).sortedRecords.Pairwise
      (fun a b => a.jarak ≤ b.jarak) ∧
    (runApp clock world fmt files).sortedRecords.Perm
      (runApp clock world fmt files).dist.records ∧
    dataFrameRows (runApp clock world fmt files).sortedRecords =
      (runApp clock world fmt files).sortedRecords ∧
    (thumbGrid (runApp clock world fmt files).proc
        (runApp clock world fmt files).sortedRecords).map Prod.snd =
      (runApp clock world fmt files).sortedRecords.map (fun r => r.nama) ∧
    (mapMarkers (runApp clock world fmt files).proc
        (runApp clock world fmt files).sortedRecords).map Marker.tooltip =
      (runApp clock world fmt files).sortedRecords.map (fun r => r.nama) ∧
    (mapMarkers (runApp clock world fmt files).proc
        (runApp clock world fmt files).sortedRecords).map Marker.location =
      (runApp clock world fmt files).sortedRecords.map
        (fun r => (r.latitude, r.longitude)) ∧
    (kmlPoints (runApp clock world fmt files).sortedRecords).map Prod.fst =
      (runApp clock world fmt files).sortedRecords.map (fun r => r.nama) := by
  haveI : IsTotal DistRecord (fun a b => a.jarak ≤ b.jarak) :=
    ⟨fun a b => le_total a.jarak b.jarak⟩
  haveI : IsTrans DistRecord (fun a b => a.jarak ≤ b.jarak) :=
    ⟨fun a b c hab hbc => le_trans hab hbc⟩
  have hsorted : ∀ recs : List DistRecord,
      (sortDistances recs).Pairwise fun a b => a.jarak ≤ b.jarak :=
    fun recs => List.sorted_insertionSort (fun a b : DistRecord => a.jarak ≤ b.jarak) recs
  have hperm : ∀ recs : List DistRecord, (sortDistances recs).Perm recs :=
    fun recs => List.perm_insertionSort _ recs
  refine ⟨?_, ?_, rfl, ?_, ?_, ?_, ?_⟩ <;>
    simp only [runApp] <;>
    cases hc : (processFiles (sortFiles clock files)).coordinates <;>
    simp [thumbGrid, mapMarkers, kmlPoints, List.map_map, Function.comp, hsorted, hperm]

/-- The thumbnail list of the extraction loop is as long as the name
list. -/
theorem processFiles_length_eq (fs : List UploadedFile) :
    (processFiles fs).thumbnails.length = (processFiles fs).valid_images.length := by
  induction fs with
  | nil => rfl
  | cons f fs ih =>
    cases h : extract_coordinates f.img with
    | none => simp [processFiles, h, ih]
    | some val => simp [processFiles, h, ih]

/-- The names zipped with the thumbnails are exactly the successful
extractions: each valid photo's name paired with the byte string its
thumbnail is generated from. -/
theorem processFiles_zip_names_thumbs (fs : List UploadedFile) :
    (processFiles fs).valid_images.zip (processFiles fs).thumbnails =
      fs.filterMap
        (fun f => (extract_coordinates f.img).map (fun x => (f.name, x.2))) := by
  induction fs with
  | nil => rfl
  | cons f fs ih =>
    cases h : extract_coordinates f.img with
    | none => simp [processFiles, h, ih]
    | some val => simp [processFiles, h, ih]

/-- Resolving a present name through `valid_images.index` yields the
thumbnail of a photo bearing that name; with pairwise distinct names it is
the thumbnail of every (hence the unique) valid photo so named. -/
theorem lookupThumb_spec (fs : List UploadedFile) (name : String)
    (hnd : (processFiles fs).valid_images.Nodup)
    (hmem : name ∈ (processFiles fs).valid_images) :
    ∃ tb, lookupThumb (processFiles fs).valid_images (processFiles fs).thumbnails
        name = some tb ∧
      (∃ f ∈ fs, f.name = name ∧ ∃ c, extract_coordinates f.img = some (c, tb)) ∧
      (∀ f ∈ fs, f.name = name →
        ∀ c bs, extract_coordinates f.img = some (c, bs) → bs = tb) := by
  have hlen : (processFiles fs).thumbnails.length =
      (processFiles fs).valid_images.length := processFiles_length_eq fs
  have hi : (processFiles fs).valid_images.indexOf name <
      (processFiles fs).valid_images.length := List.indexOf_lt_length.mpr hmem
  have hith : (processFiles fs).valid_images.indexOf name <
      (processFiles fs).thumbnails.length := by rw [hlen]; exact hi
  refine ⟨(processFiles fs).thumbnails.get
    ⟨(processFiles fs).valid_images.indexOf name, hith⟩, ?_, ?_, ?_⟩
  · show (processFiles fs).thumbnails[(processFiles fs).valid_images.indexOf name]? =
      some ((processFiles fs).thumbnails.get
        ⟨(processFiles fs).valid_images.indexOf name, hith⟩)
    rw [List.getElem?_eq_getElem hith]
    rfl
  · have hzlen : (processFiles fs).valid_images.indexOf name <
        ((processFiles fs).valid_images.zip (processFiles fs).thumbnails).length := by
      rw [List.length_zip]; exact lt_min hi hith
    have hpair : ((processFiles fs).valid_images.get
          ⟨(processFiles fs).valid_images.indexOf name, hi⟩,
        (processFiles fs).thumbnails.get
          ⟨(processFiles fs).valid_images.indexOf name, hith⟩) ∈
        (processFiles fs).valid_images.zip (processFiles fs).thumbnails := by
      have hz := @List.getElem_zip _ _ (processFiles fs).valid_images
        (processFiles fs).thumbnails
        ((processFiles fs).valid_images.indexOf name) hzlen
      rw [show (((processFiles fs).valid_images.get
            ⟨(processFiles fs).valid_images.indexOf name, hi⟩,
          (processFiles fs).thumbnails.get
            ⟨(processFiles fs).valid_images.indexOf name, hith⟩)) =
          ((processFiles fs).valid_images.zip
            (processFiles fs).thumbnails)[(processFiles fs).valid_images.indexOf name]
        from hz.symm]
      exact List.getElem_mem _
    rw [List.indexOf_get hi] at hpair
    rw [processFiles_zip_names_thumbs] at hpair
    obtain ⟨f, hf, hfeq⟩ := List.mem_filterMap.mp hpair
    obtain ⟨x, hx, hxeq⟩ := Option.map_eq_some'.mp hfeq
    obtain ⟨c, bs⟩ := x
    simp only [Prod.mk.injEq] at hxeq
    obtain ⟨hn, ht2⟩ := hxeq
    refine ⟨f, hf, hn, c, ?_⟩
    rw [hx, ht2]
  · intro f hf hfname c bs hex
    have hpair2 : (name, bs) ∈
        (processFiles fs).valid_images.zip (processFiles fs).thumbnails := by
      rw [processFiles_zip_names_thumbs]
      exact List.mem_filterMap.mpr ⟨f, hf, by simp [hex, hfname]⟩
    obtain ⟨⟨j, hj⟩, hget⟩ := List.mem_iff_get.mp hpair2
    have hj1 : j < (processFiles fs).valid_images.length := by
      have := hj; rw [List.length_zip] at this; exact lt_of_lt_of_le this (min_le_left _ _)
    have hj2 : j < (processFiles fs).thumbnails.length := by
      have := hj; rw [List.length_zip] at this; exact lt_of_lt_of_le this (min_le_right _ _)
    have hgz : ((processFiles fs).valid_images.zip
        (processFiles fs).thumbnails).get ⟨j, hj⟩ =
        ((processFiles fs).valid_images.get ⟨j, hj1⟩,
         (processFiles fs).thumbnails.get ⟨j, hj2⟩) := by
      simp [List.getElem_zip]
    rw [hgz] at hget
    obtain ⟨hg1, hg2⟩ := Prod.mk.injEq _ _ _ _ |>.mp hget
    have hidx : (processFiles fs).valid_images.indexOf name = j := by
      rw [← hg1]
      exact List.get_indexOf hnd ⟨j, hj1⟩
    subst hidx
    exact hg2.symm

/-- C10: with pairwise distinct valid-photo names, the thumbnail looked up
for every displayed row -- the lookup both the grid and the map popup
perform -- exists and is exactly the thumbnail generated from the photo
bearing the row's filename, the name being resolved to its first
occurrence in the valid-image list. -/
theorem thumbnails_match_rows (clock : Nat → Nat) (world : String → OsrmResult)
    (fmt : ℚ → String) (files : List UploadedFile)
    (hnd : (runApp clock world fmt files).proc.valid_images.Nodup) :
    ∀ r ∈ (runApp clock world fmt files).sortedRecords, ∃ tb,
      lookupThumb (runApp clock world fmt files).proc.valid_images
        (runApp clock world fmt files).proc.thumbnails r.nama = some tb ∧
      (∃ f ∈ (runApp clock world fmt files).sorted_files, f.name = r.nama ∧
        ∃ c, extract_coordinates f.img = some (c, tb)) ∧
      (∀ f ∈ (runApp clock world fmt files).sorted_files, f.name = r.nama →
        ∀ c bs, extract_coordinates f.img = some (c, bs) → bs = tb) := by
  intro r hr
  have hproc : (runApp clock world fmt files).proc =
      processFiles (sortFiles clock files) := by
    simp only [runApp]
    cases hc : (processFiles (sortFiles clock files)).coordinates <;> rfl
  have hsf : (runApp clock world fmt files).sorted_files = sortFiles clock files := by
    simp only [runApp]
    cases hc : (processFiles (sortFiles clock files)).coordinates <;> rfl
  rw [hproc] at hnd ⊢
  rw [hsf]
  have hrr : r ∈ (runApp clock world fmt files).dist.records := by
    have hperm : (runApp clock world fmt files).sortedRecords.Perm
        (runApp clock world fmt files).dist.records := by
      simp only [runApp]
      cases hc : (processFiles (sortFiles clock files)).coordinates <;>
        simp [sortDistances, List.perm_insertionSort]
    exact hperm.mem_iff.mp hr
  have hmem : r.nama ∈ (processFiles (sortFiles clock files)).valid_images := by
    simp only [runApp] at hrr
    cases hc : (processFiles (sortFiles clock files)).coordinates with
    | nil =>
      rw [hc] at hrr
      simp [computeDistances] at hrr
    | cons c0 ctl =>
      rw [hc] at hrr
      dsimp only at hrr
      obtain ⟨p, hp, d, t, _, _, hrec⟩ :=
        computeDistances_records_mem world fmt c0 _ r hrr
      obtain ⟨pc, pn⟩ := p
      have hmem2 : pn ∈ (processFiles (sortFiles clock files)).valid_images :=
        (List.of_mem_zip hp).2
      rw [hrec]
      exact hmem2
  exact lookupThumb_spec (sortFiles clock files) r.nama hnd hmem

/-- Witness for C10: a run over two photos with distinct parsable names. -/
theorem thumbnails_match_rows_witness :
    (runApp clkW worldOkW fmtW [fileTs1, fileTs2]).proc.valid_images.Nodup ∧
    ∀ r ∈ (runApp clkW worldOkW fmtW [fileTs1, fileTs2]).sortedRecords, ∃ tb,
      lookupThumb (runApp clkW worldOkW fmtW [fileTs1, fileTs2]).proc.valid_images
        (runApp clkW worldOkW fmtW [fileTs1, fileTs2]).proc.thumbnails r.nama = some tb ∧
      (∃ f ∈ (runApp clkW worldOkW fmtW [fileTs1, fileTs2]).sorted_files,
        f.name = r.nama ∧ ∃ c, extract_coordinates f.img = some (c, tb)) ∧
      (∀ f ∈ (runApp clkW worldOkW fmtW [fileTs1, fileTs2]).sorted_files,
        f.name = r.nama →
        ∀ c bs, extract_coordinates f.img = some (c, bs) → bs = tb) := by
  have hnd : (runApp clkW worldOkW fmtW [fileTs1, fileTs2]).proc.valid_images.Nodup := by
    norm_num [runApp, sortFiles, fileKeys, parseTimestampKey, beforeDot, digitsVal, digitVal,
      processFiles, extract_coordinates, effectiveSource, startsWithFtypheic, ftypheicBytes,
      dmsToDecimal, fileTs1, fileTs2, gpsN1, gpsN2, clkW, List.insertionSort,
      List.orderedInsert]
    decide
  exact ⟨hnd, thumbnails_match_rows clkW worldOkW fmtW [fileTs1, fileTs2] hnd⟩

end ChatDinz
